import Mathlib

/-!
Verification of the modu-snake simulation core.

The definitions below are a shallow embedding of the game's TypeScript
source.  All simulation-relevant numeric fields are JavaScript numbers
holding integer values (component fields are declared i32/fixed-point in
`entities.ts`), so they are modelled as `Int`.  JavaScript's `x | 0`
truncation of an exact integer ratio `a / b` is modelled by `Int.tdiv`
(truncation toward zero); comments at each definition point back to the
source location it embeds.  The authoritative movement system is the
fixed-point variant (file `unnamed/part_002`); the design notes of the
spec designate the older floating-point `systems.ts` as superseded.
-/

namespace ModuSnake

/- Constants, from `src/constants.ts`. -/

def WORLD_WIDTH : Int := 4000

def WORLD_HEIGHT : Int := 4000

def SPEED : Int := 8

def BOOST_SPEED : Int := 18

def BOOST_COST_FRAMES : Int := 10

def MIN_BOOST_LENGTH : Int := 10

def INITIAL_LENGTH : Int := 15

def SEGMENT_SPAWN_INTERVAL : Int := 1

def FOOD_COUNT : Nat := 100

def MAX_FOOD : Nat := 200

/-- Direction-vector scale factor, from `entities.ts` (`DIR_SCALE = 1000`). -/
def DIR_SCALE : Int := 1000

/-- Modelled from the spec: `FP_ONE`, the 16.16 fixed-point scale factor of
the fixed-point math library.  The library itself is imported from the
external `modu-engine` package and is absent from this repository; the
spec (section 4.1) and the source comments (`FP_ONE is 65536`) fix it. -/
def FP_ONE : Int := 65536

/-- Modelled from the spec: fixed-point multiply, truncating (never
rounding), over integers scaled by `FP_ONE`. -/
def fpMul (a b : Int) : Int := (a * b).tdiv FP_ONE

/-- Modelled from the spec: fixed-point divide, truncating toward zero. -/
def fpDiv (a b : Int) : Int := (a * FP_ONE).tdiv b

/-- Newton's-method iteration for the integer square root, with explicit
fuel so that it is structurally recursive (the fuel `n` always dominates
the number of strictly-decreasing guesses, so it never runs out). -/
def isqrtIter : Nat → Nat → Nat → Nat
  | 0, _, guess => guess
  | fuel + 1, n, guess =>
    let next := (guess + n / guess) / 2
    if next < guess then isqrtIter fuel n next else guess

/-- Floor integer square root by Newton's method. -/
def isqrt (n : Nat) : Nat :=
  if n ≤ 1 then n else isqrtIter n n (n / 2)

/-- Modelled from the spec: fixed-point square root (integer Newton's
method with a deterministic iteration count, i.e. the floor integer
square root of the rescaled operand). -/
def fpSqrt (a : Int) : Int := Int.ofNat (isqrt (a * FP_ONE).toNat)

/-- Modelled from the spec: `toFixed` restricted to the integer inputs the
simulation feeds it (targets are `Math.round`ed before use). -/
def toFixedInt (x : Int) : Int := x * FP_ONE

/-- The turn-rate constant `TURN_SPEED_FP = toFixed(0.15)` from
`unnamed/part_002`: `trunc (0.15 * 65536) = 9830`. -/
def TURN_SPEED_FP : Int := 9830

/- Actor state, from the `SnakeHead` component of `entities.ts`. -/

structure SnakeHead where
  length : Int
  dirX : Int
  dirY : Int
  prevDirX : Int
  prevDirY : Int
  lastSpawnFrame : Int
  boostFrames : Int
  boosting : Int
  deriving DecidableEq

/-- Food record: position + color (`entities.ts` food entity), plus the
engine's destroyed flag. -/
structure Food where
  x : Int
  y : Int
  color : Int
  destroyed : Bool
  deriving DecidableEq

/-- The default actor state of a fresh spawn (`spawnSnake` passes
`length: INITIAL_LENGTH`; the component defaults give direction
`(DIR_SCALE, 0)`, counters `0`). -/
def initialHead : SnakeHead :=
  { length := INITIAL_LENGTH, dirX := DIR_SCALE, dirY := 0,
    prevDirX := DIR_SCALE, prevDirY := 0, lastSpawnFrame := 0,
    boostFrames := 0, boosting := 0 }

/-- Result of the boost block for one actor in one frame. -/
structure BoostResult where
  sh : SnakeHead
  currentSpeed : Int
  spawnedFood : List Food

/-- The boost block of the movement system (`unnamed/part_002`, lines
251-274), for one actor in one frame.  `boostHeld` is the truthiness of
the `boostPressed` expression; `tx, ty` is the head transform position and
`color` the head sprite color.  The spawned food position embeds
`t.x - ((sh.dirX * 30) / DIR_SCALE) | 0` on integer inputs. -/
def boostStep (sh : SnakeHead) (tx ty color : Int) (boostHeld : Bool) : BoostResult :=
  let isBoosting := boostHeld && decide (MIN_BOOST_LENGTH < sh.length)
  let currentSpeed := if isBoosting then BOOST_SPEED else SPEED
  let sh1 := { sh with boosting := if isBoosting then (1 : Int) else 0 }
  if isBoosting then
    let bf := sh1.boostFrames + 1
    if BOOST_COST_FRAMES ≤ bf then
      { sh := { sh1 with length := sh1.length - 1, boostFrames := 0 },
        currentSpeed := currentSpeed,
        spawnedFood := [{ x := (tx * DIR_SCALE - sh1.dirX * 30).tdiv DIR_SCALE,
                          y := (ty * DIR_SCALE - sh1.dirY * 30).tdiv DIR_SCALE,
                          color := color, destroyed := false }] }
    else
      { sh := { sh1 with boostFrames := bf }, currentSpeed := currentSpeed,
        spawnedFood := [] }
  else
    { sh := { sh1 with boostFrames := 0 }, currentSpeed := currentSpeed,
      spawnedFood := [] }

/-- Iterate the boost block for `n` consecutive frames with boost held,
collecting the spawned food (head at the origin, color token `0`). -/
def boostRun : SnakeHead → List Food → Nat → SnakeHead × List Food
  | sh, foods, 0 => (sh, foods)
  | sh, foods, n + 1 =>
    let r := boostStep sh 0 0 0 true
    boostRun r.sh (foods ++ r.spawnedFood) n

/-- C1: the boost system never reduces an actor's length below
`MIN_BOOST_LENGTH`: the eligibility check (`boost held AND length >
MIN_BOOST_LENGTH`) is re-evaluated every frame before any cost is paid,
so a length at or below the threshold is never decremented — the actor
stops boosting (flag cleared, counter reset) and pays no further cost. -/
theorem boost_length_floor (sh : SnakeHead) (tx ty color : Int) (boostHeld : Bool) :
    (MIN_BOOST_LENGTH ≤ sh.length →
      MIN_BOOST_LENGTH ≤ (boostStep sh tx ty color boostHeld).sh.length) ∧
    (sh.length ≤ MIN_BOOST_LENGTH →
      (boostStep sh tx ty color boostHeld).sh.length = sh.length ∧
      (boostStep sh tx ty color boostHeld).sh.boosting = 0 ∧
      (boostStep sh tx ty color boostHeld).sh.boostFrames = 0 ∧
      (boostStep sh tx ty color boostHeld).spawnedFood = []) := by
  constructor
  · intro h
    by_cases hb : boostHeld
    · by_cases hl : MIN_BOOST_LENGTH < sh.length
      · by_cases hf : BOOST_COST_FRAMES ≤ sh.boostFrames + 1
        · simp [boostStep, hb, hl, hf]
          omega
        · simp [boostStep, hb, hl, hf]
          omega
      · simp [boostStep, hb, hl]
        omega
    · simp [boostStep, hb]
      omega
  · intro h
    have hl : ¬MIN_BOOST_LENGTH < sh.length := by omega
    by_cases hb : boostHeld
    · simp [boostStep, hb, hl]
    · simp [boostStep, hb]

/-- C1 witness: an actor exactly at the threshold length keeps its length
and is not boosting. -/
theorem boost_length_floor_witness :
    MIN_BOOST_LENGTH ≤ (boostStep { initialHead with length := MIN_BOOST_LENGTH } 0 0 0 true).sh.length ∧
    (boostStep { initialHead with length := MIN_BOOST_LENGTH } 0 0 0 true).sh.boosting = 0 :=
  ⟨(boost_length_floor { initialHead with length := MIN_BOOST_LENGTH } 0 0 0 true).1 (by decide),
   ((boost_length_floor { initialHead with length := MIN_BOOST_LENGTH } 0 0 0 true).2 (by decide)).2.1⟩

/-- C2: while boosting the frame counter increments by 1; in the frame it
reaches `BOOST_COST_FRAMES` the length decrements by exactly 1, the
counter resets to 0, and exactly one food item is spawned at the head
position minus 30 units along the current direction, with the actor's
color.  While not boosting the counter resets to 0.  In particular, an
actor of length 15 that holds boost for 10 consecutive frames ends frame
10 with length 14, counter 0, and exactly one food item behind it. -/
theorem boost_cost_accounting :
    (∀ (sh : SnakeHead) (tx ty color : Int),
      (MIN_BOOST_LENGTH < sh.length →
        (sh.boostFrames + 1 < BOOST_COST_FRAMES →
          (boostStep sh tx ty color true).sh.boostFrames = sh.boostFrames + 1 ∧
          (boostStep sh tx ty color true).sh.length = sh.length ∧
          (boostStep sh tx ty color true).spawnedFood = []) ∧
        (BOOST_COST_FRAMES ≤ sh.boostFrames + 1 →
          (boostStep sh tx ty color true).sh.length = sh.length - 1 ∧
          (boostStep sh tx ty color true).sh.boostFrames = 0 ∧
          (boostStep sh tx ty color true).spawnedFood =
            [{ x := (tx * DIR_SCALE - sh.dirX * 30).tdiv DIR_SCALE,
               y := (ty * DIR_SCALE - sh.dirY * 30).tdiv DIR_SCALE,
               color := color, destroyed := false }])) ∧
      (∀ boostHeld : Bool, ¬(boostHeld = true ∧ MIN_BOOST_LENGTH < sh.length) →
        (boostStep sh tx ty color boostHeld).sh.boostFrames = 0 ∧
        (boostStep sh tx ty color boostHeld).sh.length = sh.length ∧
        (boostStep sh tx ty color boostHeld).spawnedFood = [])) ∧
    ((boostRun initialHead [] 10).1.length = 14 ∧
     (boostRun initialHead [] 10).1.boostFrames = 0 ∧
     (boostRun initialHead [] 10).2 = [{ x := -30, y := 0, color := 0, destroyed := false }]) := by
  refine ⟨fun sh tx ty color => ⟨fun hl => ⟨fun hlt => ?_, fun hge => ?_⟩,
    fun boostHeld hnb => ?_⟩, by decide⟩
  · have hf : ¬BOOST_COST_FRAMES ≤ sh.boostFrames + 1 := by omega
    simp [boostStep, hl, hf]
  · simp [boostStep, hl, hge]
  · by_cases hb : boostHeld
    · have hl : ¬MIN_BOOST_LENGTH < sh.length := fun h => hnb ⟨hb, h⟩
      simp [boostStep, hb, hl]
    · simp [boostStep, hb]

/-- C2 witness: at counter 9 the next boosting frame pays the cost; with
boost released the counter resets. -/
theorem boost_cost_accounting_witness :
    (boostStep { initialHead with boostFrames := 9 } 0 0 0 true).sh.length =
      initialHead.length - 1 ∧
    (boostStep initialHead 0 0 0 false).sh.boostFrames = 0 :=
  ⟨(((boost_cost_accounting.1 { initialHead with boostFrames := 9 } 0 0 0).1
      (by decide)).2 (by decide)).1,
   ((boost_cost_accounting.1 initialHead 0 0 0).2 false (by decide)).1⟩

/- Whole-game state: the entity store's records of the three gameplay
entity kinds, plus the simulation frame counter. -/

/-- A `snake-head` entity: `Player.clientId`, the engine's `eid` and
`destroyed` flag, the `SnakeHead` component, transform position (integer,
as compared by the boundary check), sprite radius and color. -/
structure HeadEnt where
  eid : Nat
  clientId : Int
  destroyed : Bool
  snake : SnakeHead
  posX : Int
  posY : Int
  radius : Int
  color : Int
  deriving DecidableEq

/-- A `snake-segment` entity (`SnakeSegment` component plus sprite data
and the destroyed flag). -/
structure Segment where
  ownerId : Int
  spawnFrame : Int
  x : Int
  y : Int
  color : Int
  destroyed : Bool
  deriving DecidableEq

structure GameState where
  frame : Int
  heads : List HeadEnt
  segments : List Segment
  foods : List Food
  deriving DecidableEq

/-- The function `killSnake` (`unnamed/part_002`, lines 106-118): look the head up by
client id; return unchanged if absent or already destroyed; otherwise
destroy every segment whose `ownerId` equals the client id, then destroy
the head.  (The source sorts segments by `eid` before destroying; the
sort affects only iteration order, not which records are destroyed.) -/
def killSnake (g : GameState) (clientId : Int) : GameState :=
  match g.heads.find? (fun h => h.clientId == clientId) with
  | none => g
  | some head =>
    if head.destroyed then g
    else
      { g with
        segments := g.segments.map (fun s =>
          if s.ownerId == clientId then { s with destroyed := true } else s),
        heads := g.heads.map (fun h =>
          if h.eid == head.eid then { h with destroyed := true } else h) }

/-- The `snake-head` vs `snake-segment` collision handler
(`unnamed/part_002`, lines 156-162), delivered a pair of records of the
current state (given here by their indices). -/
def onHeadSegment (g : GameState) (hi si : Nat) : GameState :=
  match g.heads.get? hi, g.segments.get? si with
  | some head, some seg =>
    if head.destroyed || seg.destroyed then g
    else if seg.ownerId == head.clientId then g
    else killSnake g head.clientId
  | _, _ => g

/-- The `snake-head` vs `food` collision handler (`unnamed/part_002`,
lines 165-169): guarded only on the food's destroyed flag; increments the
head's length and destroys the food. -/
def onHeadFood (g : GameState) (hi fi : Nat) : GameState :=
  match g.heads.get? hi, g.foods.get? fi with
  | some head, some food =>
    if food.destroyed then g
    else
      { g with
        heads := g.heads.set hi
          { head with snake := { head.snake with length := head.snake.length + 1 } },
        foods := g.foods.set fi { food with destroyed := true } }
  | _, _ => g

/-- C9: a head-vs-segment collision event in which the segment's owner is
the colliding actor itself changes nothing: self-collision is ignored and
the actor is never destroyed by it. -/
theorem self_collision_ignored (g : GameState) (hi si : Nat) (head : HeadEnt)
    (seg : Segment) (hh : g.heads.get? hi = some head)
    (hs : g.segments.get? si = some seg) (hown : seg.ownerId = head.clientId) :
    onHeadSegment g hi si = g := by
  unfold onHeadSegment
  rw [hh, hs]
  by_cases hd : head.destroyed || seg.destroyed
  · simp [hd]
  · simp [hd, hown]

/-- C9 witness. -/
theorem self_collision_ignored_witness :
    onHeadSegment
      { frame := 0,
        heads := [{ eid := 1, clientId := 7, destroyed := false, snake := initialHead,
                    posX := 100, posY := 100, radius := 16, color := 3 }],
        segments := [{ ownerId := 7, spawnFrame := 0, x := 90, y := 100, color := 3,
                       destroyed := false }],
        foods := [] } 0 0 =
      { frame := 0,
        heads := [{ eid := 1, clientId := 7, destroyed := false, snake := initialHead,
                    posX := 100, posY := 100, radius := 16, color := 3 }],
        segments := [{ ownerId := 7, spawnFrame := 0, x := 90, y := 100, color := 3,
                       destroyed := false }],
        foods := [] } :=
  self_collision_ignored _ 0 0 _ _ rfl rfl rfl

/-- C10: `killSnake` is a no-op when the client id maps to no live actor —
whether the lookup yields nothing or an already-destroyed head — leaving
every record (in particular segments still carrying that owner id)
unchanged; consequently a second `killSnake` for the same client changes
nothing. -/
theorem killSnake_noop_when_dead (g : GameState) (cid : Int) :
    (g.heads.find? (fun h => h.clientId == cid) = none → killSnake g cid = g) ∧
    (∀ head, g.heads.find? (fun h => h.clientId == cid) = some head →
      head.destroyed = true → killSnake g cid = g) ∧
    killSnake (killSnake g cid) cid = killSnake g cid := by
  refine ⟨fun hn => by simp [killSnake, hn], fun head hf hd => by simp [killSnake, hf, hd], ?_⟩
  rcases hfind : g.heads.find? (fun h => h.clientId == cid) with _ | head
  · simp [killSnake, hfind]
  · by_cases hd : head.destroyed
    · simp [killSnake, hfind, hd]
    · have hstep : killSnake g cid =
        { g with
          segments := g.segments.map (fun s =>
            if s.ownerId == cid then { s with destroyed := true } else s),
          heads := g.heads.map (fun h =>
            if h.eid == head.eid then { h with destroyed := true } else h) } := by
        simp [killSnake, hfind, hd]
      have hfind2 : (killSnake g cid).heads.find? (fun h => h.clientId == cid) =
          some { head with destroyed := true } := by
        rw [hstep]
        simp only [List.find?_map]
        have hpeq : ((fun h : HeadEnt => h.clientId == cid) ∘
            (fun h => if h.eid == head.eid then { h with destroyed := true } else h)) =
            (fun h : HeadEnt => h.clientId == cid) := by
          funext h
          by_cases he : h.eid = head.eid <;> simp [he]
        rw [hpeq, hfind]
        simp
      rw [killSnake.eq_def]
      rw [hfind2]
      simp

/-- A head record already destroyed, for the C10 witness state. -/
def deadHead : HeadEnt :=
  { eid := 1, clientId := 7, destroyed := true, snake := initialHead,
    posX := 100, posY := 100, radius := 16, color := 3 }

/-- A state holding a destroyed head and a live segment that still carries
its owner id. -/
def deadHeadGame : GameState :=
  { frame := 3, heads := [deadHead],
    segments := [{ ownerId := 7, spawnFrame := 1, x := 90, y := 100, color := 3,
                   destroyed := false }],
    foods := [] }

/-- C10 witness: on that state `killSnake` changes nothing. -/
theorem killSnake_noop_when_dead_witness : killSnake deadHeadGame 7 = deadHeadGame :=
  (killSnake_noop_when_dead deadHeadGame 7).2.1 deadHead (by decide) (by decide)

/-- C3 (amended): the head-vs-segment handler leaves the state unchanged
whenever either participating record was already destroyed, and the
head-vs-food handler leaves it unchanged whenever the food was already
destroyed.  (The food handler does not guard on the head being destroyed;
see the counterexample.) -/
theorem collision_destroyed_guards :
    (∀ (g : GameState) (hi si : Nat) (head : HeadEnt) (seg : Segment),
      g.heads.get? hi = some head → g.segments.get? si = some seg →
      (head.destroyed = true ∨ seg.destroyed = true) → onHeadSegment g hi si = g) ∧
    (∀ (g : GameState) (hi fi : Nat) (food : Food),
      g.foods.get? fi = some food → food.destroyed = true → onHeadFood g hi fi = g) := by
  constructor
  · intro g hi si head seg hh hs hd
    unfold onHeadSegment
    rw [hh, hs]
    rcases hd with hd | hd <;> simp [hd]
  · intro g hi fi food hf hd
    unfold onHeadFood
    rcases hh : g.heads.get? hi with _ | head
    · rfl
    · rw [hf]
      simp [hd]

/-- C3 witness: concrete no-op instances of both guards. -/
theorem collision_destroyed_guards_witness :
    onHeadSegment
      { deadHeadGame with
        segments := [{ ownerId := 9, spawnFrame := 1, x := 90, y := 100, color := 5,
                       destroyed := false }] } 0 0 =
      { deadHeadGame with
        segments := [{ ownerId := 9, spawnFrame := 1, x := 90, y := 100, color := 5,
                       destroyed := false }] } ∧
    onHeadFood
      { deadHeadGame with
        foods := [{ x := 100, y := 100, color := 2, destroyed := true }] } 0 0 =
      { deadHeadGame with
        foods := [{ x := 100, y := 100, color := 2, destroyed := true }] } :=
  ⟨collision_destroyed_guards.1 _ 0 0 deadHead
      { ownerId := 9, spawnFrame := 1, x := 90, y := 100, color := 5, destroyed := false }
      (by decide) (by decide) (Or.inl (by decide)),
   collision_destroyed_guards.2 _ 0 0
      { x := 100, y := 100, color := 2, destroyed := true } (by decide) (by decide)⟩

/-- C3 counterexample: a collision event between an already-destroyed head
and a live food is not a no-op — the handler still increments the dead
head's length and destroys the food. -/
theorem food_handler_ignores_destroyed_head :
    deadHead.destroyed = true ∧
    onHeadFood
      { deadHeadGame with
        foods := [{ x := 100, y := 100, color := 2, destroyed := false }] } 0 0 ≠
      { deadHeadGame with
        foods := [{ x := 100, y := 100, color := 2, destroyed := false }] } := by
  decide

/- The tail of the movement-system body for one actor
(`unnamed/part_002`, lines 285-309): boundary check, death, segment
spawning. -/

/-- Boundary check plus segment spawning for one actor of the movement
system (`head` is that actor's record, `clientId` its client id; the
steering/boost part has already updated the state).  On a boundary
violation the snake is killed and the trail-spawn step is skipped. -/
def boundarySpawn (g : GameState) (clientId : Int) (head : HeadEnt) : GameState :=
  if head.posX - head.radius < 0 ∨ WORLD_WIDTH < head.posX + head.radius ∨
      head.posY - head.radius < 0 ∨ WORLD_HEIGHT < head.posY + head.radius then
    killSnake g clientId
  else if SEGMENT_SPAWN_INTERVAL ≤ g.frame - head.snake.lastSpawnFrame then
    { g with
      segments := g.segments ++
        [{ ownerId := clientId, spawnFrame := g.frame, x := head.posX, y := head.posY,
           color := head.color, destroyed := false }],
      heads := g.heads.map (fun h =>
        if h.eid == head.eid then { h with snake := { h.snake with lastSpawnFrame := g.frame } }
        else h) }
  else g

/-- C5: when an actor's head violates the arena rectangle on any side, the
actor and all and only the segments it owns are destroyed in that same
frame, segments of other owners are untouched, and no trailing segment is
spawned for it (the segment list keeps its length). -/
theorem boundary_kill_cascade (g : GameState) (cid : Int) (head : HeadEnt)
    (hfind : g.heads.find? (fun h => h.clientId == cid) = some head)
    (hlive : head.destroyed = false)
    (hout : head.posX - head.radius < 0 ∨ WORLD_WIDTH < head.posX + head.radius ∨
      head.posY - head.radius < 0 ∨ WORLD_HEIGHT < head.posY + head.radius) :
    (boundarySpawn g cid head).segments.length = g.segments.length ∧
    (∀ (i : Nat) (s : Segment), g.segments.get? i = some s →
      (boundarySpawn g cid head).segments.get? i =
        some (if s.ownerId == cid then { s with destroyed := true } else s)) ∧
    (∃ h2, h2 ∈ (boundarySpawn g cid head).heads ∧ h2.eid = head.eid ∧
      h2.destroyed = true) := by
  have hbs : boundarySpawn g cid head = killSnake g cid := by
    unfold boundarySpawn
    rw [if_pos hout]
  have hks : killSnake g cid =
      { g with
        segments := g.segments.map (fun s =>
          if s.ownerId == cid then { s with destroyed := true } else s),
        heads := g.heads.map (fun h =>
          if h.eid == head.eid then { h with destroyed := true } else h) } := by
    simp [killSnake, hfind, hlive]
  rw [hbs, hks]
  refine ⟨by simp, fun i s hs => ?_, ?_⟩
  · rw [List.get?_eq_getElem?] at hs ⊢
    simp [List.getElem?_map, hs]
  · refine ⟨{ head with destroyed := true }, ?_, rfl, rfl⟩
    have hmem : head ∈ g.heads := List.mem_of_find?_eq_some hfind
    have : (fun h => if h.eid == head.eid then { h with destroyed := true } else h) head =
        { head with destroyed := true } := by simp
    simpa [this] using List.mem_map_of_mem
      (fun h => if h.eid == head.eid then { h with destroyed := true } else h) hmem

/-- An out-of-bounds head (its radius crosses the left arena wall). -/
def outHead : HeadEnt :=
  { eid := 1, clientId := 7, destroyed := false, snake := initialHead,
    posX := 10, posY := 100, radius := 16, color := 3 }

/-- A segment owned by the out-of-bounds actor. -/
def segMine : Segment :=
  { ownerId := 7, spawnFrame := 1, x := 90, y := 100, color := 3, destroyed := false }

/-- A segment owned by another actor. -/
def segOther : Segment :=
  { ownerId := 9, spawnFrame := 2, x := 300, y := 300, color := 5, destroyed := false }

/-- A state with the out-of-bounds actor, one segment it owns and one
foreign segment. -/
def outGame : GameState :=
  { frame := 5, heads := [outHead], segments := [segMine, segOther], foods := [] }

/-- C5 witness: the cascade at the concrete out-of-bounds state — no new
segment, the actor's segment destroyed, the foreign one untouched, the
head destroyed. -/
theorem boundary_kill_cascade_witness :
    (boundarySpawn outGame 7 outHead).segments.length = outGame.segments.length ∧
    (boundarySpawn outGame 7 outHead).segments.get? 0 =
      some { segMine with destroyed := true } ∧
    (boundarySpawn outGame 7 outHead).segments.get? 1 = some segOther ∧
    (∃ h2, h2 ∈ (boundarySpawn outGame 7 outHead).heads ∧ h2.eid = outHead.eid ∧
      h2.destroyed = true) := by
  obtain ⟨h1, h2, h3⟩ := boundary_kill_cascade outGame 7 outHead (by decide) (by decide)
    (Or.inl (by decide))
  refine ⟨h1, ?_, ?_, h3⟩
  · rw [h2 0 segMine rfl]
    decide
  · rw [h2 1 segOther rfl]
    decide

/- Food spawning (`unnamed/part_002`, lines 338-343) and the boost drop
applied to the whole state. -/

/-- Number of live food records (`game.getEntitiesByType('food').length`). -/
def liveFoodCount (g : GameState) : Nat :=
  (g.foods.filter (fun f => !f.destroyed)).length

/-- The periodic food-spawning system: spawn one food when the live count
is below `MAX_FOOD` and the random draw hits (`randHit` is the truth of
`Math.random() < FOOD_SPAWN_CHANCE`; `newFood` the randomly placed food
record `spawnFood` creates). -/
def foodSpawnSystem (g : GameState) (randHit : Bool) (newFood : Food) : GameState :=
  if liveFoodCount g < MAX_FOOD && randHit then
    { g with foods := g.foods ++ [newFood] }
  else g

/-- The boost block of the movement system applied to the whole state for
the actor at index `hi`: its `SnakeHead` component is updated and the
dropped food (if the cost was paid this frame) is added to the store. -/
def applyBoost (g : GameState) (hi : Nat) (boostHeld : Bool) : GameState :=
  match g.heads.get? hi with
  | none => g
  | some head =>
    let r := boostStep head.snake head.posX head.posY head.color boostHeld
    { g with heads := g.heads.set hi { head with snake := r.sh },
             foods := g.foods ++ r.spawnedFood }

/-- C7 (amended): the periodic spawner respects the cap — it never raises
the live food count above `MAX_FOOD` (and never above the current count
plus one). -/
theorem food_spawner_respects_cap (g : GameState) (randHit : Bool) (newFood : Food) :
    liveFoodCount (foodSpawnSystem g randHit newFood) ≤ max (liveFoodCount g) MAX_FOOD := by
  unfold foodSpawnSystem
  split
  · rename_i hcond
    have hlt : liveFoodCount g < MAX_FOOD := by
      have := hcond
      simp only [Bool.and_eq_true, decide_eq_true_eq] at this
      exact this.1
    have : liveFoodCount { g with foods := g.foods ++ [newFood] } ≤ liveFoodCount g + 1 := by
      simp only [liveFoodCount, List.filter_append, List.length_append]
      have hone : (List.filter (fun f => !f.destroyed) [newFood]).length ≤ 1 :=
        List.length_filter_le _ _
      omega
    omega
  · exact le_max_left _ _

/-- A single live food record. -/
def plainFood : Food := { x := 1, y := 2, color := 0, destroyed := false }

/-- An actor one frame away from paying the boost cost. -/
def boostingHead : HeadEnt :=
  { eid := 1, clientId := 7, destroyed := false,
    snake := { initialHead with boostFrames := 9 },
    posX := 100, posY := 100, radius := 16, color := 3 }

/-- A state already holding `MAX_FOOD` live food records. -/
def fullFoodGame : GameState :=
  { frame := 0, heads := [boostingHead], segments := [],
    foods := List.replicate MAX_FOOD plainFood }

set_option maxRecDepth 8000 in
/-- C7 counterexample: the boost-cost drop spawns food without any cap
check, so a boosting actor pushes the live food count to `MAX_FOOD + 1`. -/
theorem food_cap_exceeded_by_boost :
    liveFoodCount fullFoodGame = MAX_FOOD ∧
    MAX_FOOD < liveFoodCount (applyBoost fullFoodGame 0 true) := by
  decide

/-- C8 counterexample: ten consecutive frames of boosting take a
fresh actor's length from `INITIAL_LENGTH = 15` down to 14, strictly
below the initial length — so length is not bounded below by
`INITIAL_LENGTH`. -/
theorem length_drops_below_initial :
    (boostRun initialHead [] 10).1.length < INITIAL_LENGTH := by
  decide

/-- C8 (amended): a live actor's length is an integer bounded below by
`MIN_BOOST_LENGTH = 10`, not by `INITIAL_LENGTH`: it starts at
`INITIAL_LENGTH ≥ MIN_BOOST_LENGTH`, the boost step preserves the bound
(so the length can reach 10 but never drop further, in particular never
go negative), and food pickup only increases it. -/
theorem length_floor_invariant :
    MIN_BOOST_LENGTH ≤ INITIAL_LENGTH ∧
    (∀ (sh : SnakeHead) (tx ty color : Int) (boostHeld : Bool),
      MIN_BOOST_LENGTH ≤ sh.length →
      MIN_BOOST_LENGTH ≤ (boostStep sh tx ty color boostHeld).sh.length) ∧
    (∀ (g : GameState) (hi fi : Nat),
      (∀ h ∈ g.heads, MIN_BOOST_LENGTH ≤ h.snake.length) →
      ∀ h ∈ (onHeadFood g hi fi).heads, MIN_BOOST_LENGTH ≤ h.snake.length) := by
  refine ⟨by decide, fun sh tx ty color boostHeld h => ?_, fun g hi fi hall h hmem => ?_⟩
  · by_cases hb : boostHeld
    · by_cases hl : MIN_BOOST_LENGTH < sh.length
      · by_cases hf : BOOST_COST_FRAMES ≤ sh.boostFrames + 1
        · simp [boostStep, hb, hl, hf]
          omega
        · simp [boostStep, hb, hl, hf]
          omega
      · simp [boostStep, hb, hl]
        omega
    · simp [boostStep, hb]
      omega
  · unfold onHeadFood at hmem
    split at hmem
    · rename_i head food hh hf
      split at hmem
      · exact hall h hmem
      · rcases List.mem_or_eq_of_mem_set hmem with hmem2 | heq
        · exact hall h hmem2
        · have hhead : head ∈ g.heads := List.get?_mem hh
          have hlen := hall head hhead
          rw [heq]
          show MIN_BOOST_LENGTH ≤ head.snake.length + 1
          omega
    · exact hall h hmem

/-- C8 amended witness: the bound applied at the threshold actor and at a
concrete food pickup. -/
theorem length_floor_invariant_witness :
    MIN_BOOST_LENGTH ≤
      (boostStep { initialHead with length := MIN_BOOST_LENGTH } 0 0 0 true).sh.length ∧
    (∀ h ∈ (onHeadFood { deadHeadGame with heads := [outHead], foods := [plainFood] } 0 0).heads,
      MIN_BOOST_LENGTH ≤ h.snake.length) :=
  ⟨length_floor_invariant.2.1 { initialHead with length := MIN_BOOST_LENGTH } 0 0 0 true
      (by decide),
   length_floor_invariant.2.2 { deadHeadGame with heads := [outHead], foods := [plainFood] }
      0 0 (by decide)⟩

/- The steering part of the movement system (`unnamed/part_002`, lines
205-248): fully deterministic fixed-point direction calculation. -/

/-- Fixed-point squared distance from the head position `(tx, ty)` to the
rounded target. -/
def targetDistSq (tx ty targetX targetY : Int) : Int :=
  fpMul (toFixedInt targetX - toFixedInt tx) (toFixedInt targetX - toFixedInt tx) +
  fpMul (toFixedInt targetY - toFixedInt ty) (toFixedInt targetY - toFixedInt ty)

/-- The blended (turn-rate interpolated, not yet normalized) direction in
16.16 fixed point: `newDir = curDir + (desired - curDir) * turnSpeed`,
with `curDir` converted from `DIR_SCALE` storage and `desired` the
normalized displacement to the target. -/
def blendedDir (sh : SnakeHead) (tx ty targetX targetY : Int) : Int × Int :=
  let dxFp := toFixedInt targetX - toFixedInt tx
  let dyFp := toFixedInt targetY - toFixedInt ty
  let distFp := fpSqrt (targetDistSq tx ty targetX targetY)
  let desiredXFp := fpDiv dxFp distFp
  let desiredYFp := fpDiv dyFp distFp
  let curDirXFp := (sh.dirX * FP_ONE).tdiv DIR_SCALE
  let curDirYFp := (sh.dirY * FP_ONE).tdiv DIR_SCALE
  (curDirXFp + fpMul (desiredXFp - curDirXFp) TURN_SPEED_FP,
   curDirYFp + fpMul (desiredYFp - curDirYFp) TURN_SPEED_FP)

/-- The squared magnitude of the blended direction, exactly as the code
computes it (`newLenSqFp`). -/
def blendLenSq (sh : SnakeHead) (tx ty targetX targetY : Int) : Int :=
  fpMul (blendedDir sh tx ty targetX targetY).1 (blendedDir sh tx ty targetX targetY).1 +
  fpMul (blendedDir sh tx ty targetX targetY).2 (blendedDir sh tx ty targetX targetY).2

/-- The steering step when a target is present: if its squared distance
exceeds one unit, blend toward it, normalize when the computed magnitude
is positive, and store the result converted back to `DIR_SCALE`
integers; otherwise only the previous direction is saved. -/
def steeringStepTarget (sh : SnakeHead) (tx ty targetX targetY : Int) : SnakeHead :=
  if FP_ONE < targetDistSq tx ty targetX targetY then
    let nd := blendedDir sh tx ty targetX targetY
    let out :=
      if 0 < blendLenSq sh tx ty targetX targetY then
        let newLenFp := fpSqrt (blendLenSq sh tx ty targetX targetY)
        if 0 < newLenFp then (fpDiv nd.1 newLenFp, fpDiv nd.2 newLenFp) else nd
      else nd
    { sh with prevDirX := sh.dirX, prevDirY := sh.dirY,
              dirX := (out.1 * DIR_SCALE).tdiv FP_ONE,
              dirY := (out.2 * DIR_SCALE).tdiv FP_ONE }
  else { sh with prevDirX := sh.dirX, prevDirY := sh.dirY }

/-- One steering step for one actor: save the previous direction; with no
target the direction holds, otherwise steer toward it. -/
def steeringStep (sh : SnakeHead) (tx ty : Int) (target : Option (Int × Int)) : SnakeHead :=
  match target with
  | none => { sh with prevDirX := sh.dirX, prevDirY := sh.dirY }
  | some (targetX, targetY) => steeringStepTarget sh tx ty targetX targetY

/-- C4 (amended): when the blended direction's computed magnitude is zero
the normalization division is indeed skipped (no division by the zero
magnitude), but the stored direction does not hold from the previous
frame: it is overwritten with the `DIR_SCALE` conversion of the
unnormalized blended vector — `(0, 0)` whenever the blend is `(0, 0)`. -/
theorem steering_zero_magnitude_skips_division (sh : SnakeHead) (tx ty targetX targetY : Int)
    (hdist : FP_ONE < targetDistSq tx ty targetX targetY)
    (hzero : blendLenSq sh tx ty targetX targetY = 0) :
    steeringStep sh tx ty (some (targetX, targetY)) =
      { sh with
        prevDirX := sh.dirX, prevDirY := sh.dirY,
        dirX := ((blendedDir sh tx ty targetX targetY).1 * DIR_SCALE).tdiv FP_ONE,
        dirY := ((blendedDir sh tx ty targetX targetY).2 * DIR_SCALE).tdiv FP_ONE } := by
  have hstep : steeringStep sh tx ty (some (targetX, targetY)) =
      steeringStepTarget sh tx ty targetX targetY := rfl
  rw [hstep]
  unfold steeringStepTarget
  rw [if_pos hdist, hzero]
  rfl

/-- The stored direction of the C4 counterexample actor: `(138, -110)` in
`DIR_SCALE` units. -/
def steerHead : SnakeHead :=
  { length := INITIAL_LENGTH, dirX := 138, dirY := -110, prevDirX := 138,
    prevDirY := -110, lastSpawnFrame := 0, boostFrames := 0, boosting := 0 }

/-- C4 witness: at the concrete input below the computed magnitude is zero
and the theorem determines the stored direction. -/
theorem steering_zero_magnitude_skips_division_witness :
    steeringStep steerHead 100 100 (some (31, 155)) =
      { steerHead with
        prevDirX := steerHead.dirX, prevDirY := steerHead.dirY,
        dirX := ((blendedDir steerHead 100 100 31 155).1 * DIR_SCALE).tdiv FP_ONE,
        dirY := ((blendedDir steerHead 100 100 31 155).2 * DIR_SCALE).tdiv FP_ONE } :=
  steering_zero_magnitude_skips_division steerHead 100 100 31 155 (by decide) (by decide)

/-- C4 counterexample: an actor whose blended direction vector is exactly
`(0, 0)` (zero magnitude) after the turn-rate interpolation, yet whose
stored direction after the steering step differs from its direction
before the step — the direction does not hold from the previous frame. -/
theorem steering_zero_magnitude_overwrites_direction :
    blendedDir steerHead 100 100 31 155 = (0, 0) ∧
    blendLenSq steerHead 100 100 31 155 = 0 ∧
    FP_ONE < targetDistSq 100 100 31 155 ∧
    (steeringStep steerHead 100 100 (some (31, 155))).dirX ≠ steerHead.dirX ∧
    (steeringStep steerHead 100 100 (some (31, 155))).dirY ≠ steerHead.dirY := by
  decide

/- The tail-cleanup system (`unnamed/part_002`, lines 314-336). -/

/-- The `headMaxAge` map of the tail-cleanup system, modelled as a lookup
function: iterate over the (eid-sorted) head list, skip destroyed heads,
and for each live head `set` its client id to
`frame - length * SEGMENT_SPAWN_INTERVAL` (JS `Map.set` overrides, so a
later entry wins).  The map is built in full before any segment is
destroyed. -/
def buildHeadMaxAge (frame : Int) : List HeadEnt → (Int → Option Int) → Int → Option Int
  | [], m, cid => m cid
  | h :: rest, m, cid =>
    if h.destroyed then buildHeadMaxAge frame rest m cid
    else
      buildHeadMaxAge frame rest (fun k =>
        if k == h.clientId then some (frame - h.snake.length * SEGMENT_SPAWN_INTERVAL)
        else m k) cid

/-- The per-segment pruning decision: skip destroyed segments; otherwise
destroy the segment exactly when its owner has an `oldestAllowed` entry
and `spawnFrame < oldestAllowed`. -/
def pruneSegment (lookup : Int → Option Int) (s : Segment) : Segment :=
  if s.destroyed then s
  else
    match lookup s.ownerId with
    | none => s
    | some oldest => if s.spawnFrame < oldest then { s with destroyed := true } else s

/-- The tail-cleanup system: build the owner thresholds from the live
heads, then prune every segment against them. -/
def tailCleanup (g : GameState) : GameState :=
  let lookup := buildHeadMaxAge g.frame g.heads (fun _ => none)
  { g with segments := g.segments.map (pruneSegment lookup) }

/-- Rewriting `(a :: l).getLast?` in terms of `l.getLast?`. -/
theorem getLast?_cons_getD {α : Type _} (a : α) (l : List α) :
    (a :: l).getLast? = some (l.getLast?.getD a) := by
  induction l generalizing a with
  | nil => rfl
  | cons b l ih =>
    rw [List.getLast?_cons_cons, ih b]
    simp

/-- The built map sends a client id to the threshold of the last live head
in the list carrying that id (and falls through to the initial map when
there is none). -/
theorem buildHeadMaxAge_lookup (frame : Int) :
    ∀ (heads : List HeadEnt) (m : Int → Option Int) (cid : Int),
      buildHeadMaxAge frame heads m cid =
        match (heads.filter (fun h => !h.destroyed && h.clientId == cid)).getLast? with
        | some h => some (frame - h.snake.length * SEGMENT_SPAWN_INTERVAL)
        | none => m cid := by
  intro heads
  induction heads with
  | nil =>
    intro m cid
    rfl
  | cons h rest ih =>
    intro m cid
    simp only [buildHeadMaxAge]
    by_cases hd : h.destroyed = true
    · rw [if_pos hd, ih, List.filter_cons_of_neg (by simp [hd])]
    · rw [if_neg hd, ih]
      by_cases hc : h.clientId = cid
      · rw [List.filter_cons_of_pos (by simp [hd, hc]), getLast?_cons_getD]
        cases hl : (rest.filter (fun h => !h.destroyed && h.clientId == cid)).getLast? with
        | none => simp [hc]
        | some h2 => simp
      · rw [List.filter_cons_of_neg (by simp [hd, hc])]
        cases hl : (rest.filter (fun h => !h.destroyed && h.clientId == cid)).getLast? with
        | none =>
          have hcc : (cid == h.clientId) = false := by
            simp only [beq_eq_false_iff_ne, ne_eq]
            exact fun heq => hc heq.symm
          simp [hcc]
        | some h2 => simp

/-- C6: in a tail-cleanup pass the thresholds
`oldestAllowedFrame = frame - length * SEGMENT_SPAWN_INTERVAL` come from
the heads as they were before any segment was destroyed (the state `g`),
and a live segment is destroyed if and only if some live actor carries
its owner id and the segment's `spawnFrame` is strictly below that
actor's threshold; otherwise it is untouched.  (The hypothesis `huniq` is
the data-model invariant of at most one live actor per client id.) -/
theorem tail_cleanup_prunes_iff (g : GameState)
    (huniq : ∀ a ∈ g.heads, ∀ b ∈ g.heads, a.destroyed = false → b.destroyed = false →
      a.clientId = b.clientId → a = b)
    (i : Nat) (s : Segment) (hs : g.segments.get? i = some s)
    (hlive : s.destroyed = false) :
    ((tailCleanup g).segments.get? i = some { s with destroyed := true } ↔
      ∃ h ∈ g.heads, h.destroyed = false ∧ h.clientId = s.ownerId ∧
        s.spawnFrame < g.frame - h.snake.length * SEGMENT_SPAWN_INTERVAL) ∧
    ((tailCleanup g).segments.get? i = some s ↔
      ¬∃ h ∈ g.heads, h.destroyed = false ∧ h.clientId = s.ownerId ∧
        s.spawnFrame < g.frame - h.snake.length * SEGMENT_SPAWN_INTERVAL) := by
  have hne : s ≠ { s with destroyed := true } := by
    intro h
    have := congrArg Segment.destroyed h
    rw [hlive] at this
    exact Bool.false_ne_true this
  have hget : (tailCleanup g).segments.get? i =
      some (pruneSegment (buildHeadMaxAge g.frame g.heads (fun _ => none)) s) := by
    unfold tailCleanup
    rw [List.get?_eq_getElem?] at hs ⊢
    simp [List.getElem?_map, hs]
  rw [hget]
  have hlk := buildHeadMaxAge_lookup g.frame g.heads (fun _ => none) s.ownerId
  cases hl : (g.heads.filter (fun h => !h.destroyed && h.clientId == s.ownerId)).getLast? with
  | none =>
    rw [hl] at hlk
    have hlk2 : buildHeadMaxAge g.frame g.heads (fun _ => none) s.ownerId = none := by
      rw [hlk]
    have hprune : pruneSegment (buildHeadMaxAge g.frame g.heads (fun _ => none)) s = s := by
      simp [pruneSegment, hlk2, hlive]
    have hnoex : ¬∃ h ∈ g.heads, h.destroyed = false ∧ h.clientId = s.ownerId ∧
        s.spawnFrame < g.frame - h.snake.length * SEGMENT_SPAWN_INTERVAL := by
      rintro ⟨h, hmem, hlv, hcid, _⟩
      have : h ∈ g.heads.filter (fun h => !h.destroyed && h.clientId == s.ownerId) :=
        List.mem_filter.2 ⟨hmem, by simp [hlv, hcid]⟩
      rw [List.getLast?_eq_none_iff.1 hl] at this
      exact absurd this (List.not_mem_nil h)
    rw [hprune]
    exact ⟨⟨fun heq => absurd (Option.some.inj heq) hne, fun hex => absurd hex hnoex⟩,
           ⟨fun _ => hnoex, fun _ => rfl⟩⟩
  | some h2 =>
    rw [hl] at hlk
    have hlk2 : buildHeadMaxAge g.frame g.heads (fun _ => none) s.ownerId =
        some (g.frame - h2.snake.length * SEGMENT_SPAWN_INTERVAL) := by
      rw [hlk]
    have hmem2 : h2 ∈ g.heads.filter (fun h => !h.destroyed && h.clientId == s.ownerId) := by
      obtain ⟨hnil, heq⟩ := List.mem_getLast?_eq_getLast (Option.mem_def.2 hl)
      rw [heq]
      exact List.getLast_mem hnil
    obtain ⟨hmem2g, hp2⟩ := List.mem_filter.1 hmem2
    rw [Bool.and_eq_true] at hp2
    have hlv2 : h2.destroyed = false := by simpa using hp2.1
    have hcid2 : h2.clientId = s.ownerId := beq_iff_eq.1 hp2.2
    by_cases hsp : s.spawnFrame < g.frame - h2.snake.length * SEGMENT_SPAWN_INTERVAL
    · have hprune : pruneSegment (buildHeadMaxAge g.frame g.heads (fun _ => none)) s =
          { s with destroyed := true } := by
        simp [pruneSegment, hlk2, hlive, hsp]
      have hex : ∃ h ∈ g.heads, h.destroyed = false ∧ h.clientId = s.ownerId ∧
          s.spawnFrame < g.frame - h.snake.length * SEGMENT_SPAWN_INTERVAL :=
        ⟨h2, hmem2g, hlv2, hcid2, hsp⟩
      rw [hprune]
      exact ⟨⟨fun _ => hex, fun _ => rfl⟩,
             ⟨fun heq => absurd (Option.some.inj heq).symm hne,
              fun hnex => absurd hex hnex⟩⟩
    · have hprune : pruneSegment (buildHeadMaxAge g.frame g.heads (fun _ => none)) s = s := by
        simp [pruneSegment, hlk2, hlive, hsp]
      have hnoex : ¬∃ h ∈ g.heads, h.destroyed = false ∧ h.clientId = s.ownerId ∧
          s.spawnFrame < g.frame - h.snake.length * SEGMENT_SPAWN_INTERVAL := by
        rintro ⟨h, hmem, hlv, hcid, hspawn⟩
        have : h = h2 := huniq h hmem h2 hmem2g hlv hlv2 (hcid.trans hcid2.symm)
        rw [this] at hspawn
        exact hsp hspawn
      rw [hprune]
      exact ⟨⟨fun heq => absurd (Option.some.inj heq) hne, fun hex => absurd hex hnoex⟩,
             ⟨fun _ => hnoex, fun _ => rfl⟩⟩

/-- A live head of length 2 at frame 10 (threshold 8) for the C6 witness. -/
def cleanupHead : HeadEnt :=
  { eid := 1, clientId := 7, destroyed := false,
    snake := { initialHead with length := 2 },
    posX := 100, posY := 100, radius := 16, color := 3 }

/-- A segment of that owner older than the threshold. -/
def segStale : Segment :=
  { ownerId := 7, spawnFrame := 5, x := 90, y := 100, color := 3, destroyed := false }

/-- A segment of that owner within the threshold. -/
def segFresh : Segment :=
  { ownerId := 7, spawnFrame := 9, x := 95, y := 100, color := 3, destroyed := false }

/-- The C6 witness state. -/
def cleanupGame : GameState :=
  { frame := 10, heads := [cleanupHead], segments := [segStale, segFresh], foods := [] }

/-- C6 witness: at frame 10 with owner length 2 the threshold is 8 — the
segment spawned at frame 5 is destroyed, the one from frame 9 is kept. -/
theorem tail_cleanup_prunes_iff_witness :
    (tailCleanup cleanupGame).segments.get? 0 = some { segStale with destroyed := true } ∧
    (tailCleanup cleanupGame).segments.get? 1 = some segFresh :=
  ⟨(tail_cleanup_prunes_iff cleanupGame (by decide) 0 segStale rfl rfl).1.mpr (by decide),
   (tail_cleanup_prunes_iff cleanupGame (by decide) 1 segFresh rfl rfl).2.mpr (by decide)⟩

end ModuSnake
